import Mathlib

/-!
Verification development for the signalk-sonos-fusion-plugin repository.

The `DeviceManager` registry (lib/deviceManager.js) keeps device pairs in a
JavaScript `Map` keyed by pair name.  We model that map as an association
list with JS `Map` semantics: `set` replaces the value in place when the key
exists and appends otherwise, `delete` removes the entry, and iteration runs
in insertion order.  Timestamps are modelled as `Int` (milliseconds, JS
`Date.now()` values).  The device-protocol controllers (sonosController.js,
fusionController.js) and the SignalK event handlers (index.js) are embedded
as pure functions from an input event to the list of device commands they
issue and the SignalK deltas they publish; network transport, logging and
the tracked-device maps inside the controllers are elided (a command is
recorded as issued with the exact value the code would send).
-/

/-- The `lastActivity` record stored by `DeviceManager.updatePairActivity`:
`{timestamp: Date.now(), type: activity.type, data: activity.data}`. -/
structure Activity where
  timestamp : Int
  type : String
  data : String
deriving DecidableEq, Repr

/-- A device pair as built by `DeviceManager.addDevicePair`. -/
structure DevicePair where
  name : String
  sonosDevice : String
  fusionDevice : String
  fusionInput : String
  volumeSync : Bool
  enabled : Bool
  lastActivity : Option Activity
  status : String
deriving DecidableEq, Repr

/-- A pair configuration as supplied to `addDevicePair` /
`validatePairConfig` (plugin options, REST body, or import record).
`volumeSync`/`enabled` are `Option Bool`: `none` models the JS field being
absent (`undefined`), in which case `config.volumeSync !== false` yields
`true`. -/
structure PairConfig where
  name : String
  sonosDevice : String
  fusionDevice : String
  fusionInput : String
  volumeSync : Option Bool
  enabled : Option Bool
deriving DecidableEq, Repr

/-- The plain record emitted per pair by `DeviceManager.exportConfiguration`:
exactly the six configuration fields, no `lastActivity`, no `status`. -/
structure ExportRecord where
  name : String
  sonosDevice : String
  fusionDevice : String
  fusionInput : String
  volumeSync : Bool
  enabled : Bool
deriving DecidableEq, Repr

/-- A partial-field update as passed to `DeviceManager.updateDevicePair`
(`Object.assign(pair, updates)`): `some v` models a field present in the
updates object, `none` a field that is absent. -/
structure PairUpdate where
  name : Option String
  sonosDevice : Option String
  fusionDevice : Option String
  fusionInput : Option String
  volumeSync : Option Bool
  enabled : Option Bool
deriving DecidableEq, Repr

/-- Events emitted by the `DeviceManager` event emitter. -/
inductive Event where
  | pairReady (pair : DevicePair)
  | pairRemoved (pair : DevicePair)
deriving DecidableEq, Repr

/-- Error reported by `updateDevicePair` when the named pair does not exist
(the JS code reports it through `app.error('Device pair not found: ...')`
and returns without touching the registry). -/
inductive DMError where
  | notFound
deriving DecidableEq, Repr

/-- The registry: `this.devicePairs`, a JS `Map` from pair name to pair,
modelled as an insertion-ordered association list. -/
abbrev Registry : Type := List (String × DevicePair)

namespace Registry

/-- JS `Map.prototype.get`. -/
def mapGet (m : Registry) (k : String) : Option DevicePair :=
  (List.find? (fun e => e.1 == k) m).map (fun e => e.2)

/-- JS `Map.prototype.set`: replaces in place if the key is present,
appends otherwise. -/
def mapSet (m : Registry) (k : String) (v : DevicePair) : Registry :=
  if List.any m (fun e => e.1 == k) then
    List.map (fun e => if e.1 == k then (k, v) else e) m
  else
    m ++ [(k, v)]

/-- JS `Map.prototype.delete`: removes the (first) entry with the key. -/
def mapDelete (m : Registry) (k : String) : Registry :=
  List.eraseP (fun e => e.1 == k) m

/-- `Array.from(this.devicePairs.values())`: the stored pairs in insertion
order. -/
def values (m : Registry) : List DevicePair :=
  List.map (fun e => e.2) m

end Registry

open Registry

/-- JS `String.prototype.toLowerCase` on the ASCII identifiers this plugin
handles: character-wise lowercasing. -/
def jsToLower (s : String) : String := ⟨s.data.map Char.toLower⟩

/-- The fixed input enumeration checked by `validatePairConfig`. -/
def validInputs : List String :=
  ["aux1", "aux2", "aux3", "usb", "bluetooth", "am", "fm"]

/-- `DeviceManager.validatePairConfig`: all four required fields truthy
(non-empty strings) and `fusionInput.toLowerCase()` in the enumeration. -/
def validatePairConfig (c : PairConfig) : Bool :=
  c.name != "" && c.sonosDevice != "" && c.fusionDevice != "" && c.fusionInput != "" &&
    validInputs.contains (jsToLower c.fusionInput)

/-- The pair object literal built inside `DeviceManager.addDevicePair`. -/
def mkPair (c : PairConfig) : DevicePair :=
  { name := c.name
    sonosDevice := c.sonosDevice
    fusionDevice := c.fusionDevice
    fusionInput := jsToLower c.fusionInput
    volumeSync := c.volumeSync.getD true
    enabled := c.enabled.getD true
    lastActivity := none
    status := "ready" }

/-- `DeviceManager.addDevicePair`: stores the pair under `config.name`
(silently replacing any existing entry) and emits `devicePairReady`
exactly when the new pair is enabled. -/
def addDevicePair (m : Registry) (c : PairConfig) : Registry × List Event :=
  let pair := mkPair c
  (mapSet m c.name pair, if pair.enabled then [Event.pairReady pair] else [])

/-- `DeviceManager.removeDevicePair`: deletes and emits `devicePairRemoved`
if present, otherwise does nothing. -/
def removeDevicePair (m : Registry) (name : String) : Registry × List Event :=
  match mapGet m name with
  | some pair => (mapDelete m name, [Event.pairRemoved pair])
  | none => (m, [])

/-- `Object.assign(pair, updates)`: every field present in the updates
object overwrites the stored field (including `name`; no re-validation or
lowercasing happens here). -/
def applyUpdate (p : DevicePair) (u : PairUpdate) : DevicePair :=
  { name := u.name.getD p.name
    sonosDevice := u.sonosDevice.getD p.sonosDevice
    fusionDevice := u.fusionDevice.getD p.fusionDevice
    fusionInput := u.fusionInput.getD p.fusionInput
    volumeSync := u.volumeSync.getD p.volumeSync
    enabled := u.enabled.getD p.enabled
    lastActivity := p.lastActivity
    status := p.status }

/-- `DeviceManager.updateDevicePair`: result registry, emitted events, and
the reported error (the JS method logs `Device pair not found` and returns
early when the name is unknown, leaving the registry untouched). -/
def updateDevicePair (m : Registry) (name : String) (u : PairUpdate) :
    Registry × List Event × Option DMError :=
  match mapGet m name with
  | none => (m, [], some DMError.notFound)
  | some pair =>
    let upd := applyUpdate pair u
    let evs :=
      if !pair.enabled && upd.enabled then [Event.pairReady upd]
      else if pair.enabled && !upd.enabled then [Event.pairRemoved upd]
      else []
    (mapSet m name upd, evs, none)

/-- `DeviceManager.getPairBySonosDevice`: first enabled pair referencing the
Sonos device id. -/
def getPairBySonosDevice (m : Registry) (deviceId : String) : Option DevicePair :=
  List.find? (fun p => p.sonosDevice == deviceId && p.enabled) (values m)

/-- `DeviceManager.getPairByFusionDevice`: first enabled pair referencing
the Fusion device id. -/
def getPairByFusionDevice (m : Registry) (deviceId : String) : Option DevicePair :=
  List.find? (fun p => p.fusionDevice == deviceId && p.enabled) (values m)

/-- `DeviceManager.validateDeviceAssociation`: `{valid, conflicts}`. -/
def validateDeviceAssociation (m : Registry) (sonosDevice fusionDevice : String) :
    Bool × List String :=
  let conflicts :=
    (match getPairBySonosDevice m sonosDevice with
      | some p => [s!"Sonos device {sonosDevice} is already paired with {p.name}"]
      | none => []) ++
    (match getPairByFusionDevice m fusionDevice with
      | some p => [s!"Fusion device {fusionDevice} is already paired with {p.name}"]
      | none => [])
  (conflicts.length == 0, conflicts)

/-- `DeviceManager.updatePairActivity`: stamps `lastActivity` with the
current time if the pair exists, silently no-ops otherwise. -/
def updatePairActivity (m : Registry) (name : String) (now : Int) (ty da : String) : Registry :=
  match mapGet m name with
  | some pair => mapSet m name { pair with lastActivity := some ⟨now, ty, da⟩ }
  | none => m

/-- An entry of `statistics().recentActivity`:
`{pairName, timestamp, type}`. -/
structure ActivityEntry where
  pairName : String
  timestamp : Int
  type : String
deriving DecidableEq, Repr

/-- Descending-timestamp ordering on activity entries (`_.orderBy(...,
['timestamp'], ['desc'])` compares only the timestamp). -/
def tsGE (a b : ActivityEntry) : Prop := b.timestamp ≤ a.timestamp

instance : DecidableRel tsGE := fun a b => inferInstanceAs (Decidable (b.timestamp ≤ a.timestamp))

instance : IsTotal ActivityEntry tsGE := ⟨fun a b => le_total b.timestamp a.timestamp⟩

instance : IsTrans ActivityEntry tsGE := ⟨fun _ _ _ hab hbc => le_trans hbc hab⟩

/-- The activity records collected by `getDeviceStatistics`: one per pair
that has a `lastActivity`, in registry iteration order. -/
def activityEntries (pairs : List DevicePair) : List ActivityEntry :=
  pairs.filterMap (fun p => p.lastActivity.map (fun a => ⟨p.name, a.timestamp, a.type⟩))

/-- The per-pair activity freshness test in `getDeviceStatistics`:
`pair.lastActivity && Date.now() - pair.lastActivity.timestamp < 300000`. -/
def activityFresh (now : Int) (p : DevicePair) : Bool :=
  match p.lastActivity with
  | some a => decide (now - a.timestamp < 300000)
  | none => false

/-- The result of `DeviceManager.getDeviceStatistics`. -/
structure Stats where
  totalPairs : Nat
  enabledPairs : Nat
  activePairs : Nat
  recentActivity : List ActivityEntry
deriving DecidableEq, Repr

/-- `DeviceManager.getDeviceStatistics`.  `_.orderBy(entries, ['timestamp'],
['desc'])` is lodash's stable descending sort; it is modelled by the stable
insertion sort `List.insertionSort tsGE`. -/
def getDeviceStatistics (m : Registry) (now : Int) : Stats :=
  let pairs := values m
  { totalPairs := m.length
    enabledPairs := (pairs.filter (fun p => p.enabled)).length
    activePairs := (pairs.filter (activityFresh now)).length
    recentActivity := (List.insertionSort tsGE (activityEntries pairs)).take 10 }

/-- The per-pair record built by `DeviceManager.exportConfiguration`. -/
def exportPair (p : DevicePair) : ExportRecord :=
  { name := p.name
    sonosDevice := p.sonosDevice
    fusionDevice := p.fusionDevice
    fusionInput := p.fusionInput
    volumeSync := p.volumeSync
    enabled := p.enabled }

/-- `DeviceManager.exportConfiguration` (the `devicePairs` array). -/
def exportConfiguration (m : Registry) : List ExportRecord :=
  (values m).map exportPair

/-- An exported record read back as a pair configuration (a JSON record has
both boolean fields present). -/
def recordToConfig (r : ExportRecord) : PairConfig :=
  { name := r.name
    sonosDevice := r.sonosDevice
    fusionDevice := r.fusionDevice
    fusionInput := r.fusionInput
    volumeSync := some r.volumeSync
    enabled := some r.enabled }

/-- `DeviceManager.importConfiguration`: clears the registry, then adds each
config that passes `validatePairConfig`, skipping (not aborting on) invalid
records. -/
def importConfiguration (configs : List PairConfig) : Registry :=
  configs.foldl
    (fun acc c => if validatePairConfig c then (addDevicePair acc c).1 else acc)
    ([] : Registry)

/-!
Controllers and SignalK event handlers.

Commands record the exact value an event handler hands to a device
controller call that sends a network command; SignalK deltas published via
`app.handleMessage` are recorded as path/value pairs where a claim needs
them.
-/

/-- A device command issued by the plugin's event handlers. -/
inductive Command where
  | fusionSwitchInput (device : String) (input : String)
  | fusionSetVolume (device : String) (nativeVolume : Nat)
  | sonosSetVolume (device : String) (volume : Nat)
deriving DecidableEq, Repr

/-- A SignalK delta value published through `app.handleMessage`. -/
structure Published where
  path : String
  value : String
deriving DecidableEq, Repr

/-- `SonosController.normalizePlaybackState` (lib/sonosController.js): a
switch on `state?.toLowerCase()` with `paused_playback` and `paused`
falling through to `paused` and a default of `unknown`. -/
def normalizePlaybackState (state : String) : String :=
  let s := jsToLower state
  if s = "playing" then "playing"
  else if s = "paused_playback" ∨ s = "paused" then "paused"
  else if s = "stopped" then "stopped"
  else if s = "transitioning" then "transitioning"
  else "unknown"

/-- The conversion inside `FusionController.setVolume`:
`Math.round((volume / 100) * 40)`.  For a nonnegative integer `volume` the
fractional part of `2·volume/5` is never exactly one half (it is a multiple
of one fifth), so IEEE rounding agrees with exact half-up rounding,
`⌊(4·volume + 5) / 10⌋`. -/
def fusionNativeVolume (volume : Nat) : Nat :=
  (4 * volume + 5) / 10

/-- Modelled from the spec (§4.3, amp volume changed): the reverse
percent conversion `round(volumeNative / 40 * 100)`, i.e. exact half-up
rounding of `5·u/2`.  This definition follows the spec's words; the code
under test is `handleFusionVolumeChanged`, which is compared against it. -/
def specSourceVolumeFromNative (nativeVolume : Nat) : Nat :=
  (5 * nativeVolume + 1) / 2

/-- `handleVolumeChanged` (index.js) composed with
`FusionController.setVolume`: resolve the pair by Sonos device id; drop the
event unless the pair exists (enabled) and has `volumeSync`; otherwise the
amp receives a `setVolume` command carrying the converted native value. -/
def handleVolumeChanged (m : Registry) (device : String) (volume : Nat) : List Command :=
  match getPairBySonosDevice m device with
  | none => []
  | some pair =>
    if pair.volumeSync then
      [Command.fusionSetVolume pair.fusionDevice (fusionNativeVolume volume)]
    else []

/-- `handleFusionVolumeChanged` (index.js) composed with
`SonosController.setVolume`: resolve the pair by Fusion device id, gate on
`volumeSync`, then call `sonosController.setVolume(pair.sonosDevice,
volume)` — the value is passed through unchanged
(`device.SetVolume(volume)`). -/
def handleFusionVolumeChanged (m : Registry) (device : String) (volume : Nat) : List Command :=
  match getPairByFusionDevice m device with
  | none => []
  | some pair =>
    if pair.volumeSync then
      [Command.sonosSetVolume pair.sonosDevice volume]
    else []

/-- `handlePlaybackStateChanged` (index.js): resolve the pair by Sonos
device id; if the state is `playing`, switch the amp input; publish the
`entertainment.audio.<name>.playbackState` delta.  The handler never writes
to the registry (it does not call `updatePairActivity`), so the registry is
returned unchanged.  The NMEA2000 re-publication is elided. -/
def handlePlaybackStateChanged (m : Registry) (device state : String) :
    List Command × List Published × Registry :=
  match getPairBySonosDevice m device with
  | none => ([], [], m)
  | some pair =>
    ((if state = "playing" then [Command.fusionSwitchInput pair.fusionDevice pair.fusionInput]
      else []),
     [⟨s!"entertainment.audio.{pair.name}.playbackState", state⟩],
     m)

/-! Concrete fixtures used by counterexamples and witnesses. -/

/-- An enabled pair with volume sync on. -/
def pairFixture : DevicePair :=
  ⟨"pair1", "sonos1", "fusion1", "aux1", true, true, none, "ready"⟩

/-- A registry holding just `pairFixture`. -/
def regFixture : Registry := [("pair1", pairFixture)]

/-- An enabled pair with volume sync off. -/
def pairNoSync : DevicePair :=
  ⟨"pair1", "sonos1", "fusion1", "aux1", false, true, none, "ready"⟩

/-- A registry holding just `pairNoSync`. -/
def regNoSync : Registry := [("pair1", pairNoSync)]

/-- A disabled pair. -/
def pairDisabled : DevicePair :=
  ⟨"pair1", "sonos1", "fusion1", "aux1", true, false, none, "ready"⟩

/-- A registry holding just `pairDisabled`. -/
def regDisabled : Registry := [("pair1", pairDisabled)]

/-- Two enabled pairs that both reference the Sonos device `s`. -/
def regShared : Registry :=
  [("p1", ⟨"p1", "s", "f1", "aux1", true, true, none, "ready"⟩),
   ("p2", ⟨"p2", "s", "f2", "aux2", true, true, none, "ready"⟩)]

/-- An update object carrying a `name` field. -/
def updRename : PairUpdate := ⟨some "b", none, none, none, none, none⟩

/-- An update object without a `name` field. -/
def updTouch : PairUpdate := ⟨none, some "sonosZ", none, none, none, none⟩

/-- An update object enabling the pair. -/
def updEnable : PairUpdate := ⟨none, none, none, none, none, some true⟩

/-- A config reusing the name `pair1` with different devices. -/
def cfgDup : PairConfig := ⟨"pair1", "sonosX", "fusionX", "AUX2", some false, some true⟩

/-- Well-formedness of a stored pair: exactly what `addDevicePair` run on
a `validatePairConfig`-accepted config establishes (non-empty required
fields, lower-cased input selector from the fixed enumeration). -/
def wellFormedPair (p : DevicePair) : Prop :=
  p.name ≠ "" ∧ p.sonosDevice ≠ "" ∧ p.fusionDevice ≠ "" ∧ p.fusionInput ≠ "" ∧
    jsToLower p.fusionInput = p.fusionInput ∧ p.fusionInput ∈ validInputs

instance : DecidablePred wellFormedPair :=
  fun p => by unfold wellFormedPair; exact inferInstance

/-- The claim-side freshness test: the last activity lies strictly within
300000 ms of `now` (as a distance). -/
def withinFiveMinutes (now : Int) (p : DevicePair) : Bool :=
  match p.lastActivity with
  | some a => decide ((now - a.timestamp).natAbs < 300000)
  | none => false

/-- A registry with runtime state (`lastActivity`, non-default `status`) to
exercise the export/import round trip. -/
def regExport : Registry :=
  [("pair1", ⟨"pair1", "sonos1", "fusion1", "aux1", true, true,
      some ⟨500, "volume", "30"⟩, "active"⟩),
   ("p2", ⟨"p2", "s2", "f2", "usb", false, false, none, "ready"⟩)]

/-- A registry with a mix of fresh, stale and absent activity records and a
timestamp tie, used against `getDeviceStatistics` at `now = 500000`. -/
def regStats : Registry :=
  [("a", ⟨"a", "s1", "f1", "aux1", true, true, some ⟨100, "volume", "x"⟩, "ready"⟩),
   ("b", ⟨"b", "s2", "f2", "aux2", true, true, some ⟨400000, "playback", "y"⟩, "ready"⟩),
   ("c", ⟨"c", "s3", "f3", "aux3", true, true, none, "ready"⟩),
   ("d", ⟨"d", "s4", "f4", "usb", true, true, some ⟨400000, "track", "z"⟩, "ready"⟩)]

/-- The config whose `addDevicePair` result is exactly `regFixture`. -/
def cfgPair1 : PairConfig := ⟨"pair1", "sonos1", "fusion1", "aux1", none, none⟩

/-- An update object carrying an unvalidated `fusionInput` (the REST PATCH
body is merged by `Object.assign` with no re-validation). -/
def updBadInput : PairUpdate := ⟨none, none, none, some "bogus", none, none⟩

/-- The registry reached from `regFixture` by the unvalidated update
`updBadInput`: the stored pair's `fusionInput` is `bogus`. -/
def regBadInput : Registry :=
  [("pair1", ⟨"pair1", "sonos1", "fusion1", "bogus", true, true, none, "ready"⟩)]

/-! Helper lemmas about the JS `Map` model. -/

theorem mapGet_entry_mem {m : Registry} {k : String} {p : DevicePair}
    (h : mapGet m k = some p) : (k, p) ∈ m := by
  unfold mapGet at h
  rcases hf : List.find? (fun e => e.1 == k) m with _ | e
  · rw [hf] at h; cases h
  · rw [hf] at h
    have hk : e.1 = k := by
      have := List.find?_some hf
      simpa using this
    have hp : e.2 = p := by simpa using h
    have hm := List.mem_of_find?_eq_some hf
    rw [← hk, ← hp]
    exact hm

theorem mapGet_some_any {m : Registry} {k : String} {p : DevicePair}
    (h : mapGet m k = some p) : List.any m (fun e => e.1 == k) = true := by
  unfold mapGet at h
  rcases hf : List.find? (fun e => e.1 == k) m with _ | e
  · rw [hf] at h; cases h
  · have hpred := List.find?_some hf
    exact List.any_eq_true.mpr ⟨e, List.mem_of_find?_eq_some hf, hpred⟩

theorem mapSet_length_of_any {m : Registry} {k : String} {v : DevicePair}
    (h : List.any m (fun e => e.1 == k) = true) :
    (mapSet m k v).length = m.length := by
  unfold mapSet
  rw [if_pos h, List.length_map]

theorem mem_mapSet {m : Registry} {k : String} {v : DevicePair} {e : String × DevicePair}
    (he : e ∈ mapSet m k v) : e ∈ m ∨ e = (k, v) := by
  unfold mapSet at he
  by_cases hc : List.any m (fun x => x.1 == k) = true
  · rw [if_pos hc] at he
    obtain ⟨a, ha, hae⟩ := List.mem_map.mp he
    by_cases hak : (a.1 == k) = true
    · right; rw [if_pos hak] at hae; exact hae.symm
    · left; rw [if_neg hak] at hae; exact hae ▸ ha
  · rw [if_neg hc] at he
    rcases List.mem_append.mp he with hm | hs
    · exact Or.inl hm
    · exact Or.inr (List.mem_singleton.mp hs)

/-! ### C4 -/

/-- C4: for every registry state and every name not present in the
registry, `removeDevicePair` is a no-op that leaves the registry unchanged
and raises no error, while `updateDevicePair` reports the not-found error
and leaves the registry unchanged (and emits no events either way). -/
theorem c4_absent_name_remove_noop_update_notfound
    (m : Registry) (name : String) (u : PairUpdate) (h : mapGet m name = none) :
    removeDevicePair m name = (m, []) ∧
    updateDevicePair m name u = (m, [], some DMError.notFound) := by
  constructor
  · unfold removeDevicePair; rw [h]
  · unfold updateDevicePair; rw [h]

/-- Witness for C4 at the empty registry and name `ghost`. -/
theorem c4_witness :
    removeDevicePair [] "ghost" = ([], []) ∧
    updateDevicePair [] "ghost" ⟨none, none, none, none, none, some true⟩
      = ([], [], some DMError.notFound) :=
  c4_absent_name_remove_noop_update_notfound [] "ghost"
    ⟨none, none, none, none, none, some true⟩ rfl

/-! ### C7 -/

/-- C7: for every stored pair, an update that flips `enabled` from false to
true emits exactly one `pairReady` event, one that flips it from true to
false emits exactly one `pairRemoved` event, and an update that leaves
`enabled` unchanged emits no event; no error is reported. -/
theorem c7_enabled_transition_events
    (m : Registry) (name : String) (u : PairUpdate) (pair : DevicePair)
    (h : mapGet m name = some pair) :
    (updateDevicePair m name u).2.2 = none ∧
    (pair.enabled = false → (applyUpdate pair u).enabled = true →
      (updateDevicePair m name u).2.1 = [Event.pairReady (applyUpdate pair u)]) ∧
    (pair.enabled = true → (applyUpdate pair u).enabled = false →
      (updateDevicePair m name u).2.1 = [Event.pairRemoved (applyUpdate pair u)]) ∧
    ((applyUpdate pair u).enabled = pair.enabled →
      (updateDevicePair m name u).2.1 = []) := by
  have hm : updateDevicePair m name u =
      (mapSet m name (applyUpdate pair u),
        (if !pair.enabled && (applyUpdate pair u).enabled then
          [Event.pairReady (applyUpdate pair u)]
        else if pair.enabled && !(applyUpdate pair u).enabled then
          [Event.pairRemoved (applyUpdate pair u)]
        else []), none) := by
    unfold updateDevicePair; rw [h]
  rw [hm]
  refine ⟨rfl, ?_, ?_, ?_⟩
  · intro h1 h2; simp [h1, h2]
  · intro h1 h2; simp [h1, h2]
  · intro h1; rw [h1]; cases pair.enabled <;> simp

/-- Witness for C7: enabling the disabled fixture pair emits exactly one
`pairReady`. -/
theorem c7_witness :
    (updateDevicePair regDisabled "pair1" updEnable).2.1
      = [Event.pairReady ⟨"pair1", "sonos1", "fusion1", "aux1", true, true, none, "ready"⟩] :=
  (c7_enabled_transition_events regDisabled "pair1" updEnable pairDisabled rfl).2.1 rfl rfl

/-! ### C10 -/

/-- C10: adding a pair whose name already exists raises no error and emits
no `pairRemoved` for the displaced pair: the new pair silently replaces the
old one under the same key (registry size unchanged) and `pairReady` is
emitted exactly when the replacement is enabled. -/
theorem c10_duplicate_add_replaces
    (m : Registry) (c : PairConfig) (old : DevicePair)
    (h : mapGet m c.name = some old) :
    (addDevicePair m c).1.length = m.length ∧
    (addDevicePair m c).2
      = (if (mkPair c).enabled then [Event.pairReady (mkPair c)] else []) ∧
    (∀ ev ∈ (addDevicePair m c).2, ∀ p, ev ≠ Event.pairRemoved p) := by
  have hany := mapGet_some_any h
  refine ⟨?_, rfl, ?_⟩
  · exact mapSet_length_of_any hany
  · intro ev hev p
    unfold addDevicePair at hev
    simp only at hev
    split at hev
    · rw [List.mem_singleton.mp hev]; intro hc; cases hc
    · cases hev

/-- Witness for C10: re-adding the name `pair1` over `regFixture`. -/
theorem c10_witness :
    (addDevicePair regFixture cfgDup).1.length = 1 ∧
    (addDevicePair regFixture cfgDup).2 = [Event.pairReady (mkPair cfgDup)] :=
  have h := c10_duplicate_add_replaces regFixture cfgDup pairFixture rfl
  ⟨h.1, h.2.1⟩

/-! ### C1 -/

/-- C1: the volume sync round trip is broken in the amp-to-source
direction.  The source-volume handler does issue the converted native
value `round(50/100*40) = 20` to the amp, but the amp-volume handler
passes the native value `20` through to the source unchanged instead of
issuing `round(20/40*100) = 50`, so composing the two directions turns a
source volume of `50` into `20` (error `30 > 1`). -/
theorem c1_reverse_conversion_missing :
    handleVolumeChanged regFixture "sonos1" 50
      = [Command.fusionSetVolume "fusion1" 20] ∧
    fusionNativeVolume 50 = 20 ∧
    handleFusionVolumeChanged regFixture "fusion1" 20
      = [Command.sonosSetVolume "sonos1" 20] ∧
    specSourceVolumeFromNative 20 = 50 ∧
    (20 : Nat) ≠ 50 ∧ 50 - 20 = 30 := by
  decide

/-! ### C2 -/

/-- C2 counterexample: the claim maps every string other than the five
listed lowercase names to `unknown`, but the code lowercases its input
first, so the distinct string `PLAYING` normalizes to `playing`, not
`unknown`. -/
theorem c2_counterexample_uppercase :
    normalizePlaybackState "PLAYING" = "playing" ∧
    normalizePlaybackState "PLAYING" ≠ "unknown" ∧
    "PLAYING" ∉ (["playing", "paused", "paused_playback", "stopped",
      "transitioning"] : List String) := by
  decide

/-- C2 (amended): normalization is applied to the lowercased input: any
string lowercasing to `playing` maps to `playing`, to `paused` or
`paused_playback` maps to `paused`, to `stopped` maps to `stopped`, to
`transitioning` maps to `transitioning`, and any string whose lowercase
form is none of these maps to `unknown`. -/
theorem c2_normalization_table (s : String) :
    (jsToLower s = "playing" → normalizePlaybackState s = "playing") ∧
    (jsToLower s = "paused_playback" ∨ jsToLower s = "paused" →
      normalizePlaybackState s = "paused") ∧
    (jsToLower s = "stopped" → normalizePlaybackState s = "stopped") ∧
    (jsToLower s = "transitioning" → normalizePlaybackState s = "transitioning") ∧
    (jsToLower s ≠ "playing" → jsToLower s ≠ "paused_playback" →
      jsToLower s ≠ "paused" → jsToLower s ≠ "stopped" →
      jsToLower s ≠ "transitioning" → normalizePlaybackState s = "unknown") := by
  unfold normalizePlaybackState
  refine ⟨?_, ?_, ?_, ?_, ?_⟩
  · intro h; rw [h]; decide
  · intro h
    have h0 : jsToLower s ≠ "playing" := by rcases h with h | h <;> rw [h] <;> decide
    rw [if_neg h0, if_pos h]
  · intro h
    have h0 : jsToLower s ≠ "playing" := by rw [h]; decide
    have h1 : ¬(jsToLower s = "paused_playback" ∨ jsToLower s = "paused") := by
      rw [h]; decide
    rw [if_neg h0, if_neg h1, if_pos h]
  · intro h
    have h0 : jsToLower s ≠ "playing" := by rw [h]; decide
    have h1 : ¬(jsToLower s = "paused_playback" ∨ jsToLower s = "paused") := by
      rw [h]; decide
    have h2 : jsToLower s ≠ "stopped" := by rw [h]; decide
    rw [if_neg h0, if_neg h1, if_neg h2, if_pos h]
  · intro h0 h1 h2 h3 h4
    rw [if_neg h0, if_neg (fun ho => ho.elim h1 h2), if_neg h3, if_neg h4]

/-- Witness for C2 (amended): `PAUSED_PLAYBACK` normalizes to `paused` and
an unrecognized string normalizes to `unknown`. -/
theorem c2_normalization_table_witness :
    normalizePlaybackState "PAUSED_PLAYBACK" = "paused" ∧
    normalizePlaybackState "bogus" = "unknown" :=
  ⟨(c2_normalization_table "PAUSED_PLAYBACK").2.1 (Or.inl (by decide)),
   (c2_normalization_table "bogus").2.2.2.2 (by decide) (by decide) (by decide)
     (by decide) (by decide)⟩

/-! ### C3 -/

/-- C3: the playback-state handler does publish the derived status delta
unconditionally (here even with `volumeSync` off), but it never records
activity: it returns the registry unchanged with `lastActivity` still
`none`, although `updatePairActivity` (which exists and is never called)
would have changed it. -/
theorem c3_activity_never_recorded :
    handlePlaybackStateChanged regNoSync "sonos1" "paused"
      = ([], [⟨"entertainment.audio.pair1.playbackState", "paused"⟩], regNoSync) ∧
    (mapGet regNoSync "pair1").map (fun p => p.lastActivity) = some none ∧
    updatePairActivity regNoSync "pair1" 1000 "playbackState" "paused" ≠ regNoSync := by
  decide

/-! ### C6 -/

/-- C6 counterexample: an update whose fields include `name` rewrites the
stored pair's name (`Object.assign` merges every field), leaving the entry
keyed `pair1` but named `b` — the claim's immutability and key agreement
both fail. -/
theorem c6_counterexample_rename :
    ((updateDevicePair regFixture "pair1" updRename).1.map (fun e => (e.1, e.2.name)))
      = [("pair1", "b")] ∧ ("b" : String) ≠ "pair1" := by
  decide

/-- C6 (amended): the pair name is preserved only by updates that do not
carry a `name` field: for such updates the updated pair keeps its name and
the key-equals-name invariant is preserved; an update carrying `name`
overwrites the stored name while the map key keeps the old name. -/
theorem c6_name_preserved_without_name_field
    (m : Registry) (name : String) (u : PairUpdate) (pair : DevicePair)
    (hu : u.name = none)
    (hk : ∀ e ∈ m, e.1 = e.2.name)
    (h : mapGet m name = some pair) :
    (applyUpdate pair u).name = pair.name ∧
    ∀ e ∈ (updateDevicePair m name u).1, e.1 = e.2.name := by
  have hname : (applyUpdate pair u).name = pair.name := by
    simp [applyUpdate, hu]
  refine ⟨hname, ?_⟩
  have hpn : name = pair.name := hk (name, pair) (mapGet_entry_mem h)
  have hm : (updateDevicePair m name u).1 = mapSet m name (applyUpdate pair u) := by
    unfold updateDevicePair; rw [h]
  intro e he
  rw [hm] at he
  rcases mem_mapSet he with hmem | rfl
  · exact hk e hmem
  · simpa [hname] using hpn

/-- Witness for C6 (amended) on the fixture registry with a name-free
update. -/
theorem c6_name_preserved_witness :
    (applyUpdate pairFixture updTouch).name = "pair1" ∧
    ∀ e ∈ (updateDevicePair regFixture "pair1" updTouch).1, e.1 = e.2.name :=
  c6_name_preserved_without_name_field regFixture "pair1" updTouch pairFixture
    rfl (by decide) rfl

/-! ### C5 -/

theorem find?_filter_of_imp {α : Type} (l : List α) (p q : α → Bool)
    (h : ∀ x, p x = true → q x = true) :
    List.find? p (l.filter q) = List.find? p l := by
  induction l with
  | nil => rfl
  | cons a l ih =>
    by_cases hp : p a = true
    · rw [List.filter_cons, if_pos (h a hp), List.find?_cons_of_pos _ hp,
        List.find?_cons_of_pos _ hp]
    · by_cases hq : q a = true
      · rw [List.filter_cons, if_pos hq, List.find?_cons_of_neg _ hp,
          List.find?_cons_of_neg _ hp, ih]
      · rw [List.filter_cons, if_neg hq, List.find?_cons_of_neg _ hp, ih]

theorem values_filter_enabled (m : Registry) :
    values (m.filter (fun e => e.2.enabled)) = (values m).filter (fun p => p.enabled) := by
  induction m with
  | nil => rfl
  | cons e m ih =>
    by_cases he : e.2.enabled = true
    · simp only [values, List.filter_cons, he, List.map_cons, if_pos rfl]
      exact congrArg (e.2 :: ·) ih
    · have he2 : e.2.enabled = false := by revert he; cases e.2.enabled <;> simp
      simp only [values, List.filter_cons, he2, List.map_cons]
      simpa [values] using ih

theorem getPairBySonosDevice_enabled_only (m : Registry) (s : String) :
    getPairBySonosDevice (m.filter (fun e => e.2.enabled)) s = getPairBySonosDevice m s := by
  unfold getPairBySonosDevice
  rw [values_filter_enabled]
  exact find?_filter_of_imp (values m) _ _
    (fun x hx => by simpa using (Bool.and_eq_true _ _ |>.mp hx).2)

theorem getPairByFusionDevice_enabled_only (m : Registry) (f : String) :
    getPairByFusionDevice (m.filter (fun e => e.2.enabled)) f = getPairByFusionDevice m f := by
  unfold getPairByFusionDevice
  rw [values_filter_enabled]
  exact find?_filter_of_imp (values m) _ _
    (fun x hx => by simpa using (Bool.and_eq_true _ _ |>.mp hx).2)

/-- C5 counterexample: a registry with two enabled pairs both referencing
the Sonos device `s` has two colliding enabled pairs, but
`validateDeviceAssociation` reports only one conflict (`find` stops at the
first matching pair per device ref). -/
theorem c5_counterexample_two_colliding_pairs :
    ((values regShared).filter
        (fun p => p.enabled && (p.sonosDevice == "s" || p.fusionDevice == "zzz"))).length = 2 ∧
    (validateDeviceAssociation regShared "s" "zzz").2.length = 1 := by
  decide

/-- C5 (amended): `validate` returns `valid:false` exactly when some
enabled pair references the candidate source ref or some enabled pair
references the candidate amp ref; disabled pairs never influence the
result; and the conflict list carries at most one reason per device ref —
one for the first enabled pair referencing the source ref (if any) plus
one for the first enabled pair referencing the amp ref (if any) — not one
per colliding enabled pair. -/
theorem c5_validator_first_match_per_ref (m : Registry) (s f : String) :
    ((validateDeviceAssociation m s f).1 = false ↔
      ∃ p ∈ values m, p.enabled = true ∧ (p.sonosDevice = s ∨ p.fusionDevice = f)) ∧
    validateDeviceAssociation m s f
      = validateDeviceAssociation (m.filter (fun e => e.2.enabled)) s f ∧
    (validateDeviceAssociation m s f).2.length
      = ((values m).any (fun p => p.sonosDevice == s && p.enabled)).toNat
        + ((values m).any (fun p => p.fusionDevice == f && p.enabled)).toNat := by
  refine ⟨?_, ?_, ?_⟩
  · rcases hs : getPairBySonosDevice m s with _ | p1 <;>
      rcases hf : getPairByFusionDevice m f with _ | p2
    · simp only [validateDeviceAssociation, hs, hf]
      constructor
      · intro hv; cases hv
      · rintro ⟨p, hp, hen, hdev | hdev⟩
        · have := (List.find?_eq_none.mp hs) p hp
          simp [hdev, hen] at this
        · have := (List.find?_eq_none.mp hf) p hp
          simp [hdev, hen] at this
    · have hmem := List.mem_of_find?_eq_some hf
      have hpr := List.find?_some hf
      simp only [Bool.and_eq_true, beq_iff_eq] at hpr
      simp only [validateDeviceAssociation, hs, hf]
      refine iff_of_true rfl ⟨p2, hmem, hpr.2, Or.inr hpr.1⟩
    · have hmem := List.mem_of_find?_eq_some hs
      have hpr := List.find?_some hs
      simp only [Bool.and_eq_true, beq_iff_eq] at hpr
      simp only [validateDeviceAssociation, hs, hf]
      refine iff_of_true rfl ⟨p1, hmem, hpr.2, Or.inl hpr.1⟩
    · have hmem := List.mem_of_find?_eq_some hs
      have hpr := List.find?_some hs
      simp only [Bool.and_eq_true, beq_iff_eq] at hpr
      simp only [validateDeviceAssociation, hs, hf]
      refine iff_of_true rfl ⟨p1, hmem, hpr.2, Or.inl hpr.1⟩
  · unfold validateDeviceAssociation
    rw [getPairBySonosDevice_enabled_only, getPairByFusionDevice_enabled_only]
  · rcases hs : getPairBySonosDevice m s with _ | p1 <;>
      rcases hf : getPairByFusionDevice m f with _ | p2 <;>
      simp only [validateDeviceAssociation, hs, hf]
    · have has : (values m).any (fun p => p.sonosDevice == s && p.enabled) = false :=
        List.any_eq_false.mpr (List.find?_eq_none.mp hs)
      have haf : (values m).any (fun p => p.fusionDevice == f && p.enabled) = false :=
        List.any_eq_false.mpr (List.find?_eq_none.mp hf)
      simp [has, haf]
    · have has : (values m).any (fun p => p.sonosDevice == s && p.enabled) = false :=
        List.any_eq_false.mpr (List.find?_eq_none.mp hs)
      have hpr := List.find?_some hf
      have haf : (values m).any (fun p => p.fusionDevice == f && p.enabled) = true :=
        List.any_eq_true.mpr ⟨p2, List.mem_of_find?_eq_some hf, hpr⟩
      simp [has, haf]
    · have hpr := List.find?_some hs
      have has : (values m).any (fun p => p.sonosDevice == s && p.enabled) = true :=
        List.any_eq_true.mpr ⟨p1, List.mem_of_find?_eq_some hs, hpr⟩
      have haf : (values m).any (fun p => p.fusionDevice == f && p.enabled) = false :=
        List.any_eq_false.mpr (List.find?_eq_none.mp hf)
      simp [has, haf]
    · have hprs := List.find?_some hs
      have hprf := List.find?_some hf
      have has : (values m).any (fun p => p.sonosDevice == s && p.enabled) = true :=
        List.any_eq_true.mpr ⟨p1, List.mem_of_find?_eq_some hs, hprs⟩
      have haf : (values m).any (fun p => p.fusionDevice == f && p.enabled) = true :=
        List.any_eq_true.mpr ⟨p2, List.mem_of_find?_eq_some hf, hprf⟩
      simp [has, haf]

/-! ### C8 -/

theorem validatePairConfig_export {p : DevicePair} (hwf : wellFormedPair p) :
    validatePairConfig (recordToConfig (exportPair p)) = true := by
  obtain ⟨h1, h2, h3, h4, h5, h6⟩ := hwf
  simp [validatePairConfig, recordToConfig, exportPair, h1, h2, h3, h4]
  rw [h5]
  exact h6

theorem mkPair_export {p : DevicePair} (h5 : jsToLower p.fusionInput = p.fusionInput) :
    mkPair (recordToConfig (exportPair p))
      = ⟨p.name, p.sonosDevice, p.fusionDevice, p.fusionInput,
          p.volumeSync, p.enabled, none, "ready"⟩ := by
  simp [mkPair, recordToConfig, exportPair, h5]

theorem importConfiguration_foldl (cs : List PairConfig) (acc : Registry)
    (hv : ∀ c ∈ cs, validatePairConfig c = true)
    (hfresh : ∀ c ∈ cs, List.any acc (fun e => e.1 == c.name) = false)
    (hnd : (cs.map (fun c => c.name)).Nodup) :
    cs.foldl (fun a c => if validatePairConfig c then (addDevicePair a c).1 else a) acc
      = acc ++ cs.map (fun c => (c.name, mkPair c)) := by
  induction cs generalizing acc with
  | nil => simp
  | cons c cs ih =>
    have hvc := hv c (List.mem_cons_self c cs)
    have hfc := hfresh c (List.mem_cons_self c cs)
    rw [List.foldl_cons, if_pos hvc]
    have hstep : (addDevicePair acc c).1 = acc ++ [(c.name, mkPair c)] := by
      unfold addDevicePair mapSet
      simp only
      rw [if_neg (by rw [hfc]; exact Bool.false_ne_true)]
    rw [hstep]
    rw [ih (acc ++ [(c.name, mkPair c)])
      (fun x hx => hv x (List.mem_cons_of_mem c hx))
      (fun x hx => by
        rw [List.any_append, hfresh x (List.mem_cons_of_mem c hx)]
        have hne : c.name ≠ x.name := by
          intro hcn
          have hmm : c.name ∈ List.map (fun y => y.name) cs := by
            rw [hcn]; exact List.mem_map_of_mem (fun y => y.name) hx
          exact (List.nodup_cons.mp hnd).1 hmm
        simp [hne])
      (List.nodup_cons.mp hnd).2]
    simp

/-- C8 counterexample: the round trip does not hold for every registry
state.  The state is reachable: adding `cfgPair1` to an empty registry
gives `regFixture`, and the unvalidated update `updBadInput` (the REST
PATCH path merges arbitrary fields) gives `regBadInput`, whose pair has
`fusionInput = "bogus"`; importing that registry's own export skips the
record as invalid, so the re-import loses the pair and the round trip
fails. -/
theorem c8_counterexample_unvalidated_update :
    (addDevicePair ([] : Registry) cfgPair1).1 = regFixture ∧
    (updateDevicePair regFixture "pair1" updBadInput).1 = regBadInput ∧
    exportConfiguration
        (importConfiguration ((exportConfiguration regBadInput).map recordToConfig))
      ≠ exportConfiguration regBadInput := by
  decide

/-- C8 (amended): `exportConfiguration` emits one plain record per pair
with exactly the six configuration fields, and importing that output into
a fresh registry yields pairs with the same configuration fields (and
reset runtime fields `lastActivity = none`, `status = "ready"`) only for
registries whose stored pairs are well-formed with pairwise-distinct
names — the state validated creation (`validatePairConfig` +
`addDevicePair`) establishes; registries degraded by unvalidated updates
break the round trip. -/
theorem c8_export_import_roundtrip (m : Registry)
    (hnodup : ((values m).map (fun p => p.name)).Nodup)
    (hwf : ∀ p ∈ values m, wellFormedPair p) :
    exportConfiguration (importConfiguration ((exportConfiguration m).map recordToConfig))
      = exportConfiguration m ∧
    ∀ p ∈ values (importConfiguration ((exportConfiguration m).map recordToConfig)),
      p.lastActivity = none ∧ p.status = "ready" := by
  have hmap : (exportConfiguration m).map recordToConfig
      = (values m).map (fun p => recordToConfig (exportPair p)) := by
    unfold exportConfiguration
    rw [List.map_map]
    rfl
  have himp : importConfiguration ((exportConfiguration m).map recordToConfig)
      = (values m).map (fun p =>
          (p.name, (⟨p.name, p.sonosDevice, p.fusionDevice, p.fusionInput,
            p.volumeSync, p.enabled, none, "ready"⟩ : DevicePair))) := by
    unfold importConfiguration
    rw [hmap]
    rw [importConfiguration_foldl _ []
      (fun c hc => by
        obtain ⟨p, hp, rfl⟩ := List.mem_map.mp hc
        exact validatePairConfig_export (hwf p hp))
      (fun c _ => rfl)
      (by
        rw [List.map_map]
        have he : ((fun c => c.name) ∘ fun p : DevicePair => recordToConfig (exportPair p))
            = fun p : DevicePair => p.name := rfl
        rw [he]; exact hnodup)]
    rw [List.nil_append, List.map_map]
    exact List.map_congr_left (fun p hp => by
      have h5 := (hwf p hp).2.2.2.2.1
      simp only [Function.comp]
      rw [mkPair_export h5]
      rfl)

  constructor
  · rw [himp]
    unfold exportConfiguration values
    rw [List.map_map, List.map_map]
    exact List.map_congr_left (fun p _ => rfl)
  · intro p hp
    rw [himp] at hp
    unfold values at hp
    rw [List.map_map] at hp
    obtain ⟨q, _, rfl⟩ := List.mem_map.mp hp
    exact ⟨rfl, rfl⟩

/-- Witness for C8 on a registry with runtime state: the round trip
reproduces the configuration fields and clears the runtime fields. -/
theorem c8_witness :
    exportConfiguration (importConfiguration ((exportConfiguration regExport).map recordToConfig))
      = exportConfiguration regExport ∧
    ∀ p ∈ values (importConfiguration ((exportConfiguration regExport).map recordToConfig)),
      p.lastActivity = none ∧ p.status = "ready" :=
  c8_export_import_roundtrip regExport (by decide) (by decide)

/-! ### C9 -/

theorem filter_orderedInsert_timestamp (e : ActivityEntry) (l : List ActivityEntry) (t : Int) :
    (List.orderedInsert tsGE e l).filter (fun x => x.timestamp == t)
      = (if e.timestamp == t then e :: l.filter (fun x => x.timestamp == t)
         else l.filter (fun x => x.timestamp == t)) := by
  induction l with
  | nil =>
    simp only [List.orderedInsert_nil, List.filter_cons, List.filter_nil]
  | cons b l ih =>
    by_cases hb : tsGE e b
    · rw [List.orderedInsert_of_le tsGE l hb]
      simp only [List.filter_cons]
    · have hlt : e.timestamp < b.timestamp := by
        unfold tsGE at hb
        omega
      have hins : List.orderedInsert tsGE e (b :: l) = b :: List.orderedInsert tsGE e l := by
        show (if tsGE e b then e :: b :: l else b :: List.orderedInsert tsGE e l) = _
        rw [if_neg hb]
      rw [hins, List.filter_cons, List.filter_cons, ih]
      by_cases he : e.timestamp = t
      · have hbt : (b.timestamp == t) = false := by
          simp only [beq_eq_false_iff_ne, ne_eq]
          omega
        have heb : (e.timestamp == t) = true := by simpa using he
        simp [hbt, heb]
      · have heb : (e.timestamp == t) = false := by simpa using he
        simp [heb]

theorem filter_insertionSort_timestamp (l : List ActivityEntry) (t : Int) :
    (List.insertionSort tsGE l).filter (fun x => x.timestamp == t)
      = l.filter (fun x => x.timestamp == t) := by
  induction l with
  | nil => rfl
  | cons e l ih =>
    rw [List.insertionSort, filter_orderedInsert_timestamp, List.filter_cons]
    cases he : (e.timestamp == t) <;> simp [he, ih]

/-- C9: for every registry state and every current time (with activity
timestamps not in the future, as `Date.now()` stamping guarantees),
`statistics()` returns a `recentActivity` list of at most 10 entries,
sorted descending by timestamp, drawn only from pairs that have a
`lastActivity` record, equal to the 10-prefix of the stable descending
sort of the activity records (so ties keep registry insertion order:
filtering the sorted list at any timestamp preserves the input order),
and an `activePairs` count equal to the number of pairs whose
`lastActivity` timestamp is strictly within 300000 ms of now. -/
theorem c9_statistics_shape (m : Registry) (now : Int)
    (hts : (values m).all
      (fun p => p.lastActivity.all (fun a => decide (a.timestamp ≤ now))) = true) :
    (getDeviceStatistics m now).recentActivity.length ≤ 10 ∧
    List.Sorted tsGE (getDeviceStatistics m now).recentActivity ∧
    (∀ e ∈ (getDeviceStatistics m now).recentActivity, e ∈ activityEntries (values m)) ∧
    (getDeviceStatistics m now).recentActivity
      = (List.insertionSort tsGE (activityEntries (values m))).take 10 ∧
    (∀ t : Int,
      (List.insertionSort tsGE (activityEntries (values m))).filter
          (fun x => x.timestamp == t)
        = (activityEntries (values m)).filter (fun x => x.timestamp == t)) ∧
    (getDeviceStatistics m now).activePairs
      = ((values m).filter (withinFiveMinutes now)).length := by
  refine ⟨?_, ?_, ?_, rfl, ?_, ?_⟩
  · exact List.length_take_le 10 _
  · exact List.Pairwise.sublist (List.take_sublist 10 _)
      (List.sorted_insertionSort tsGE (activityEntries (values m)))
  · intro e he
    have h1 : e ∈ List.insertionSort tsGE (activityEntries (values m)) :=
      (List.take_sublist 10 _).subset he
    exact (List.perm_insertionSort tsGE (activityEntries (values m))).subset h1
  · exact filter_insertionSort_timestamp _
  · unfold getDeviceStatistics
    simp only
    congr 1
    apply List.filter_congr
    intro p hp
    have hpall := List.all_eq_true.mp hts p hp
    unfold activityFresh withinFiveMinutes
    cases hpa : p.lastActivity with
    | none => rfl
    | some a =>
      rw [hpa] at hpall
      have hle : a.timestamp ≤ now := of_decide_eq_true hpall
      exact decide_eq_decide.mpr (by omega)

/-- Witness for C9 on a concrete registry (fresh, stale and missing
activity records, with a timestamp tie) at `now = 500000`. -/
theorem c9_witness :
    (getDeviceStatistics regStats 500000).recentActivity.length ≤ 10 ∧
    List.Sorted tsGE (getDeviceStatistics regStats 500000).recentActivity ∧
    (getDeviceStatistics regStats 500000).activePairs
      = ((values regStats).filter (withinFiveMinutes 500000)).length :=
  have h := c9_statistics_shape regStats 500000 (by decide)
  ⟨h.1, h.2.1, h.2.2.2.2.2⟩
